import Mathlib

/-!
Shallow embedding of the rotation subsystem of the `diffgeom` library
(`src/rot2i.rs`, `src/rot3i.rs`, `src/rot2.rs`, `src/rot3.rs`), together with
proofs of the specified properties of the discrete rotation groups, the
tangent-half-angle planar rotation and the quaternion-like spatial rotation.

Conventions of the embedding:
* Rust `i32` components of `Vector3i` are embedded as `ℤ` (every value involved
  here lies in `{-3,…,3}`, far from any overflow).
* Rust `f32` (`Scalar`) values are embedded by the type `F` below: an exact
  IEEE-style scalar with `NaN`, signed infinities and exact rational finite
  values.  All floating-point literals are embedded as the exact rational value
  of the corresponding `f32` constant.  Arithmetic is exact (no rounding); every
  concrete computation examined in this file only involves operations whose
  `f32` result is exact, or is compared with a tolerance that dwarfs rounding,
  so the embedding is faithful on these inputs.  The sign of zero is not
  tracked (`-0.0` and `+0.0` are both `F.num 0`); no statement below
  distinguishes them (Rust `f32` equality also identifies them).
-/

/-- Embedding of `Vector3i` (`src/vec3i.rs`): a vector in discrete 3D space. -/
structure Vector3i where
  x : ℤ
  y : ℤ
  z : ℤ
deriving DecidableEq

/-- Embedding of the constructor shortcut `vec3i` (`src/vec3i.rs`). -/
def vec3i (x y z : ℤ) : Vector3i := ⟨x, y, z⟩

/-- Embedding of the enum `Rotation3i` (`src/rot3i.rs`), the 24 proper
rotations of the cube, in discriminant order `0..24`. -/
inductive Rotation3i where
  | XpYpZp
  | YpXpZn
  | YnXpZp
  | XnYpZn
  | XnYnZp
  | YnXnZn
  | YpXnZp
  | XpYnZn
  | ZpXpYp
  | XpZnYp
  | XnZpYp
  | ZnXpYn
  | ZnXnYp
  | XnZnYn
  | XpZpYn
  | ZpXnYn
  | YpZpXp
  | ZpYpXn
  | ZnYpXp
  | YnZpXn
  | YnZnXp
  | ZnYnXn
  | ZpYnXp
  | YpZnXn
deriving DecidableEq, Fintype

/-- All 24 `Rotation3i` values in discriminant order, mirroring the Rust
derivation loops that transmute `0u8..24` in order. -/
def Rotation3i.all : List Rotation3i :=
  [.XpYpZp, .YpXpZn, .YnXpZp, .XnYpZn, .XnYnZp, .YnXnZn, .YpXnZp, .XpYnZn,
   .ZpXpYp, .XpZnYp, .XnZpYp, .ZnXpYn, .ZnXnYp, .XnZnYn, .XpZpYn, .ZpXnYn,
   .YpZpXp, .ZpYpXn, .ZnYpXp, .YnZpXn, .YnZnXp, .ZnYnXn, .ZpYnXp, .YpZnXn]

/-- Embedding of `Rotation3i::IDENTITY` (`src/rot3i.rs`). -/
def Rotation3i.IDENTITY : Rotation3i := .XpYpZp

/-- Embedding of `Rotation3i::apply_vec3i` (`src/rot3i.rs` lines 156-183):
per-variant signed permutation of the components. -/
def Rotation3i.apply_vec3i (r : Rotation3i) (source : Vector3i) : Vector3i :=
  match r with
  | .XpYpZp => source
  | .YpXpZn => vec3i source.y source.x (-source.z)
  | .YnXpZp => vec3i (-source.y) source.x source.z
  | .XnYpZn => vec3i (-source.x) source.y (-source.z)
  | .XnYnZp => vec3i (-source.x) (-source.y) source.z
  | .YnXnZn => vec3i (-source.y) (-source.x) (-source.z)
  | .YpXnZp => vec3i source.y (-source.x) source.z
  | .XpYnZn => vec3i source.x (-source.y) (-source.z)
  | .ZpXpYp => vec3i source.z source.x source.y
  | .XpZnYp => vec3i source.x (-source.z) source.y
  | .XnZpYp => vec3i (-source.x) source.z source.y
  | .ZnXpYn => vec3i (-source.z) source.x (-source.y)
  | .ZnXnYp => vec3i (-source.z) (-source.x) source.y
  | .XnZnYn => vec3i (-source.x) (-source.z) (-source.y)
  | .XpZpYn => vec3i source.x source.z (-source.y)
  | .ZpXnYn => vec3i source.z (-source.x) (-source.y)
  | .YpZpXp => vec3i source.y source.z source.x
  | .ZpYpXn => vec3i source.z source.y (-source.x)
  | .ZnYpXp => vec3i (-source.z) source.y source.x
  | .YnZpXn => vec3i (-source.y) source.z (-source.x)
  | .YnZnXp => vec3i (-source.y) (-source.z) source.x
  | .ZnYnXn => vec3i (-source.z) (-source.y) (-source.x)
  | .ZpYnXp => vec3i source.z (-source.y) source.x
  | .YpZnXn => vec3i source.y (-source.z) (-source.x)

/-- The probe vector `TEST = vec3i(1, 2, 3)` used by the table derivations in
`Rotation3i::inverse` and `Rotation3i::compose` (`src/rot3i.rs`). -/
def probeVec : Vector3i := vec3i 1 2 3

/-- Embedding of `Rotation3i::inverse` (`src/rot3i.rs` lines 68-89): for each
rotation, scan the candidates in discriminant order and take the first `inv`
with `inv.apply_vec3i(rot.apply_vec3i(TEST)) == TEST`; the table cell defaults
to `XpYpZp` when no candidate matches. -/
def Rotation3i.inverse (r : Rotation3i) : Rotation3i :=
  (Rotation3i.all.find? fun inv =>
    inv.apply_vec3i (r.apply_vec3i probeVec) == probeVec).getD .XpYpZp

/-- Embedding of `Rotation3i::compose` (`src/rot3i.rs` lines 92-121): for each
ordered pair, scan the candidates in discriminant order and take the first `c`
with `a.apply_vec3i(b.apply_vec3i(TEST)) == c.apply_vec3i(TEST)`; the table
cell defaults to `XpYpZp` when no candidate matches.  `a * b` on `Rotation3i`
is `compose a b`. -/
def Rotation3i.compose (a b : Rotation3i) : Rotation3i :=
  (Rotation3i.all.find? fun c =>
    a.apply_vec3i (b.apply_vec3i probeVec) == c.apply_vec3i probeVec).getD .XpYpZp

/-- Embedding of the enum `Rotation2i` (`src/rot2i.rs`), in discriminant
order `0..4`. -/
inductive Rotation2i where
  | XpYp
  | YpXn
  | XnYn
  | YnXp
deriving DecidableEq, Fintype

/-- The `u8` discriminant of a `Rotation2i` (`*self as u8` in Rust). -/
def Rotation2i.toIdx : Rotation2i → Nat
  | .XpYp => 0
  | .YpXn => 1
  | .XnYn => 2
  | .YnXp => 3

/-- The inverse of the discriminant map (`std::mem::transmute::<u8, Self>`);
the Rust code only ever transmutes values masked by `& 0b11`, so only `0..4`
can occur. -/
def Rotation2i.ofIdx : Nat → Rotation2i
  | 0 => .XpYp
  | 1 => .YpXn
  | 2 => .XnYn
  | _ => .YnXp

/-- Embedding of `Rotation2i::IDENTITY` (`src/rot2i.rs`). -/
def Rotation2i.IDENTITY : Rotation2i := .XpYp

/-- Embedding of `Rotation2i::inverse` (`src/rot2i.rs` lines 39-41):
`transmute((4 - self as u8) & 0b11)`. -/
def Rotation2i.inverse (r : Rotation2i) : Rotation2i :=
  Rotation2i.ofIdx ((4 - r.toIdx) &&& 0b11)

/-- Embedding of `Mul<Rotation2i> for Rotation2i` (`src/rot2i.rs` lines
74-79): `transmute((self as u8 + rhs as u8) & 0b11)`. -/
def Rotation2i.mul (a b : Rotation2i) : Rotation2i :=
  Rotation2i.ofIdx ((a.toIdx + b.toIdx) &&& 0b11)

/-- The discriminant of each `Rotation3i` variant (`*self as u8`). -/
def Rotation3i.toIdx : Rotation3i → Nat
  | .XpYpZp => 0
  | .YpXpZn => 1
  | .YnXpZp => 2
  | .XnYpZn => 3
  | .XnYnZp => 4
  | .YnXnZn => 5
  | .YpXnZp => 6
  | .XpYnZn => 7
  | .ZpXpYp => 8
  | .XpZnYp => 9
  | .XnZpYp => 10
  | .ZnXpYn => 11
  | .ZnXnYp => 12
  | .XnZnYn => 13
  | .XpZpYn => 14
  | .ZpXnYn => 15
  | .YpZpXp => 16
  | .ZpYpXn => 17
  | .ZnYpXp => 18
  | .YnZpXn => 19
  | .YnZnXp => 20
  | .ZnYnXn => 21
  | .ZpYnXp => 22
  | .YpZnXn => 23

/-- The variant with the given discriminant (defaulting to the identity
above 23), inverse to `Rotation3i.toIdx`. -/
def Rotation3i.ofIdx : Nat → Rotation3i
  | 0 => .XpYpZp
  | 1 => .YpXpZn
  | 2 => .YnXpZp
  | 3 => .XnYpZn
  | 4 => .XnYnZp
  | 5 => .YnXnZn
  | 6 => .YpXnZp
  | 7 => .XpYnZn
  | 8 => .ZpXpYp
  | 9 => .XpZnYp
  | 10 => .XnZpYp
  | 11 => .ZnXpYn
  | 12 => .ZnXnYp
  | 13 => .XnZnYn
  | 14 => .XpZpYn
  | 15 => .ZpXnYn
  | 16 => .YpZpXp
  | 17 => .ZpYpXn
  | 18 => .ZnYpXp
  | 19 => .YnZpXn
  | 20 => .YnZnXp
  | 21 => .ZnYnXn
  | 22 => .ZpYnXp
  | _ => .YpZnXn

/-- The full 24×24 composition table that the search in `Rotation3i::compose`
derives, packed into a single natural number as base-24 digits: digit number
`24·i + j` is the discriminant of `compose a_i b_j`.  It is proved equal to
`Rotation3i.compose` in `Rotation3i.compose_eq_composeTbl`, and is used only
to make the exhaustive associativity check cheap for the kernel. -/
def composeTblNat : Nat :=
  469001388128596470031454536002794024948023697644689076442254002639516155276219983557098652598805884029925581633237734308975932442890096661182276771174288831955072592537480686865746954592508282304964941237004514829295888111317211852471063802861091856453055977794771861515518654558976524581776377159398633690679822442484018439025084109167965065412658383899265489878372655152707436162238912011870124479014887264186575068039997142948422339312058157930328344540863610967391885471918951785397532192803895548112643491756103512293644759240909260489882085000030912350073648157905130964968580148473433473287334873893360074887390782904009307710217953464668885362493408029086521554328729672299797880254644962122453964344156423378032445627394969417080893210504241922822601702371830011602921078760378156738200

/-- Table lookup at discriminant level: base-24 digit `24·i + j` of
`composeTblNat`. -/
def tblIdx (i j : Nat) : Nat :=
  composeTblNat / 24 ^ (24 * i + j) % 24

/-- Composition by table lookup, at the `Rotation3i` level. -/
def composeTbl (a b : Rotation3i) : Rotation3i :=
  Rotation3i.ofIdx (tblIdx a.toIdx b.toIdx)

/-- The `serde(rename = "…")` tag attached to each `Rotation3i` variant
(`src/rot3i.rs` lines 11-61), transcribed exactly as it appears in the
source, including the tags on `XpZpYn` (line 41) and `YnZpXn` (line 51). -/
def Rotation3i.serdeTag : Rotation3i → String
  | .XpYpZp => "xpypzp"
  | .YpXpZn => "ypxpzn"
  | .YnXpZp => "ynxpzp"
  | .XnYpZn => "xnypzn"
  | .XnYnZp => "xnynzp"
  | .YnXnZn => "ynxnzn"
  | .YpXnZp => "ypxnzp"
  | .XpYnZn => "xpynzn"
  | .ZpXpYp => "zpxpyp"
  | .XpZnYp => "xpznyp"
  | .XnZpYp => "xnzpyp"
  | .ZnXpYn => "znxpyn"
  | .ZnXnYp => "znxnyp"
  | .XnZnYn => "xnznyn"
  | .XpZpYn => "xpznyn"
  | .ZpXnYn => "zpxnyn"
  | .YpZpXp => "ypzpxp"
  | .ZpYpXn => "zpypxn"
  | .ZnYpXp => "znypxp"
  | .YnZpXn => "ynzpzn"
  | .YnZnXp => "ynznxp"
  | .ZnYnXn => "znynxn"
  | .ZpYnXp => "zpynxp"
  | .YpZnXn => "ypznxn"

/-- Modelled from the spec: the lowercase rendering of each `Rotation3i`
variant name (the "canonical short lowercase string tag describing the axis
images" the spec requires each variant to carry). -/
def Rotation3i.lowerName : Rotation3i → String
  | .XpYpZp => "xpypzp"
  | .YpXpZn => "ypxpzn"
  | .YnXpZp => "ynxpzp"
  | .XnYpZn => "xnypzn"
  | .XnYnZp => "xnynzp"
  | .YnXnZn => "ynxnzn"
  | .YpXnZp => "ypxnzp"
  | .XpYnZn => "xpynzn"
  | .ZpXpYp => "zpxpyp"
  | .XpZnYp => "xpznyp"
  | .XnZpYp => "xnzpyp"
  | .ZnXpYn => "znxpyn"
  | .ZnXnYp => "znxnyp"
  | .XnZnYn => "xnznyn"
  | .XpZpYn => "xpzpyn"
  | .ZpXnYn => "zpxnyn"
  | .YpZpXp => "ypzpxp"
  | .ZpYpXn => "zpypxn"
  | .ZnYpXp => "znypxp"
  | .YnZpXn => "ynzpxn"
  | .YnZnXp => "ynznxp"
  | .ZnYnXn => "znynxn"
  | .ZpYnXp => "zpynxp"
  | .YpZnXn => "ypznxn"

/-- The `serde(rename = "…")` tag attached to each `Rotation2i` variant
(`src/rot2i.rs` lines 13-23). -/
def Rotation2i.serdeTag : Rotation2i → String
  | .XpYp => "xpyp"
  | .YpXn => "ypxn"
  | .XnYn => "xnyn"
  | .YnXp => "ynxp"

/-- Modelled from the spec: the lowercase rendering of each `Rotation2i`
variant name. -/
def Rotation2i.lowerName : Rotation2i → String
  | .XpYp => "xpyp"
  | .YpXn => "ypxn"
  | .XnYn => "xnyn"
  | .YnXp => "ynxp"

/-- Exact embedding of the Rust `f32` scalar values arising in the rotation
code: `NaN`, the two infinities, and exact rational finite values.  The
arithmetic below follows IEEE-754 on these constructors but performs no
rounding (every concrete `f32` computation examined in this file is exact or
is compared against a tolerance that dwarfs rounding error), and does not
track the sign of zero (Rust `f32` equality also identifies `-0.0` and
`+0.0`; a zero is treated as `+0.0` where its sign would matter, and no
computation below divides by a zero that Rust produces as `-0.0`). -/
inductive F where
  | nan : F
  | inf (pos : Bool) : F
  | num (q : ℚ) : F
deriving DecidableEq

/-- IEEE negation on `F`. -/
def F.neg : F → F
  | .nan => .nan
  | .inf b => .inf !b
  | .num q => .num (-q)

/-- IEEE addition on `F` (exact in the finite case). -/
def F.add : F → F → F
  | .nan, _ => .nan
  | _, .nan => .nan
  | .inf a, .inf b => if a = b then .inf a else .nan
  | .inf a, .num _ => .inf a
  | .num _, .inf b => .inf b
  | .num a, .num b => .num (a + b)

/-- IEEE subtraction on `F`. -/
def F.sub (x y : F) : F := x.add y.neg

/-- IEEE multiplication on `F` (exact in the finite case); `∞ · 0 = NaN`. -/
def F.mul : F → F → F
  | .nan, _ => .nan
  | _, .nan => .nan
  | .inf a, .inf b => .inf (a == b)
  | .inf a, .num q => if q = 0 then .nan else .inf (a == decide (0 < q))
  | .num q, .inf b => if q = 0 then .nan else .inf (b == decide (0 < q))
  | .num a, .num b => .num (a * b)

/-- IEEE division on `F` (exact in the finite case); `x/±∞ = 0`, `∞/∞ = NaN`,
`0/0 = NaN`, and `x/0 = ±∞` for finite nonzero `x` (the zero divisor is
treated as `+0.0`). -/
def F.div : F → F → F
  | .nan, _ => .nan
  | _, .nan => .nan
  | .inf _, .inf _ => .nan
  | .inf a, .num q => .inf (a == decide (0 ≤ q))
  | .num _, .inf _ => .num 0
  | .num a, .num b =>
    if b = 0 then (if a = 0 then .nan else .inf (decide (0 < a)))
    else .num (a / b)

/-- IEEE absolute value on `F` (the branch on `q < 0` is the usual absolute
value of the exact rational). -/
def F.abs : F → F
  | .nan => .nan
  | .inf _ => .inf true
  | .num q => .num (if q < 0 then -q else q)

/-- IEEE `<=` on `F`: any comparison involving `NaN` is `false`. -/
def F.le : F → F → Bool
  | .nan, _ => false
  | _, .nan => false
  | .inf a, .inf b => !a || b
  | .inf a, .num _ => !a
  | .num _, .inf b => b
  | .num a, .num b => decide (a ≤ b)

/-- IEEE `<` on `F`: any comparison involving `NaN` is `false`. -/
def F.lt : F → F → Bool
  | .nan, _ => false
  | _, .nan => false
  | .inf a, .inf b => !a && b
  | .inf a, .num _ => !a
  | .num _, .inf b => b
  | .num a, .num b => decide (a < b)

/-- Embedding of `Vector2` for the values used here: a pair of scalars. -/
structure Vector2F where
  x : F
  y : F
deriving DecidableEq

/-- Embedding of the constructor shortcut `vec2`. -/
def vec2F (x y : F) : Vector2F := ⟨x, y⟩

/-- Embedding of `Rotation2` (`src/rot2.rs`): the tangent of half the angle
of the rotation. -/
structure Rotation2 where
  tan_half_angle : F
deriving DecidableEq

/-- Embedding of `Rotation2::NORMAL_THRESHOLD` (`src/rot2.rs` line 25): the
exact value of the `f32` literal `1e18`, namely `14551915 · 2³⁶`
(≈ 1.0000000272564224e18). -/
def Rotation2.NORMAL_THRESHOLD : F := .num (14551915 * 2 ^ 36)

/-- Embedding of `Rotation2::IDENTITY` (`src/rot2.rs` lines 28-30). -/
def Rotation2.IDENTITY : Rotation2 := ⟨.num 0⟩

/-- Embedding of `Rotation2::CCW_90` (`src/rot2.rs` lines 33-35). -/
def Rotation2.CCW_90 : Rotation2 := ⟨.num 1⟩

/-- Embedding of `Rotation2::CW_90` (`src/rot2.rs` lines 38-40). -/
def Rotation2.CW_90 : Rotation2 := ⟨.num (-1)⟩

/-- Embedding of `Rotation2::FLIP` (`src/rot2.rs` lines 43-45):
`tan_half_angle = Scalar::INFINITY`. -/
def Rotation2.FLIP : Rotation2 := ⟨.inf true⟩

/-- Embedding of `Rotation2::from_angle` (`src/rot2.rs` lines 48-52).  Rust
evaluates `f32::tan`, which is not part of this repository; the embedding is
parametrized by the tangent function `tanF`. -/
def Rotation2.from_angle (tanF : F → F) (angle : F) : Rotation2 :=
  ⟨tanF (angle.div (F.num 2))⟩

/-- Embedding of `Rotation2::inverse` (`src/rot2.rs` lines 61-65). -/
def Rotation2.inverse (r : Rotation2) : Rotation2 := ⟨r.tan_half_angle.neg⟩

/-- Embedding of `Rotation2::angle_sin_cos` (`src/rot2.rs` lines 68-77). -/
def Rotation2.angle_sin_cos (r : Rotation2) : F × F :=
  let x := r.tan_half_angle
  if x.abs.lt Rotation2.NORMAL_THRESHOLD then
    let x_sqr := x.mul x
    let y := (F.num 1).div ((F.num 1).add x_sqr)
    (((F.num 2).mul x).mul y, ((F.num 1).sub x_sqr).mul y)
  else
    ((F.num 2).div x, F.num (-1))

/-- Embedding of `Mul<Rotation2> for Rotation2` (`src/rot2.rs` lines 86-111):
the four-way branch on whether the magnitude of each operand is within
`NORMAL_THRESHOLD`. -/
def Rotation2.mul (a b : Rotation2) : Rotation2 :=
  let x := a.tan_half_angle
  let y := b.tan_half_angle
  if x.abs.le Rotation2.NORMAL_THRESHOLD then
    if y.abs.le Rotation2.NORMAL_THRESHOLD then
      ⟨(x.add y).div ((F.num 1).sub (x.mul y))⟩
    else
      ⟨(F.num 1).div (((F.num 1).div y).sub x)⟩
  else if y.abs.le Rotation2.NORMAL_THRESHOLD then
    ⟨(F.num 1).div (((F.num 1).div x).sub y)⟩
  else
    ⟨((F.num (-1)).div x).add ((F.num (-1)).div y)⟩

/-- Embedding of `Mul<Vector2> for Rotation2` (`src/rot2.rs` lines 113-119):
`(cos·x - sin·y, sin·x + cos·y)` with `(sin, cos) = angle_sin_cos()`. -/
def Rotation2.apply_vec2 (r : Rotation2) (rhs : Vector2F) : Vector2F :=
  let sc := r.angle_sin_cos
  vec2F ((sc.2.mul rhs.x).sub (sc.1.mul rhs.y))
        ((sc.1.mul rhs.x).add (sc.2.mul rhs.y))

/-- Embedding of `Vector3` over the exact scalars. -/
structure Vector3F where
  x : F
  y : F
  z : F
deriving DecidableEq

/-- Embedding of the constructor shortcut `vec3`. -/
def vec3F (x y z : F) : Vector3F := ⟨x, y, z⟩

/-- Modelled from the spec: componentwise addition of `Vector3` in the
external `diffvec` crate. -/
def Vector3F.add (a b : Vector3F) : Vector3F :=
  vec3F (a.x.add b.x) (a.y.add b.y) (a.z.add b.z)

/-- Modelled from the spec: `scalar * vector` of the external `diffvec`
crate, componentwise. -/
def Vector3F.smul (s : F) (v : Vector3F) : Vector3F :=
  vec3F (s.mul v.x) (s.mul v.y) (s.mul v.z)

/-- Modelled from the spec: `vector * scalar` of the external `diffvec`
crate, componentwise. -/
def Vector3F.muls (v : Vector3F) (s : F) : Vector3F :=
  vec3F (v.x.mul s) (v.y.mul s) (v.z.mul s)

/-- Modelled from the spec: `vector / scalar` of the external `diffvec`
crate, componentwise. -/
def Vector3F.divs (v : Vector3F) (s : F) : Vector3F :=
  vec3F (v.x.div s) (v.y.div s) (v.z.div s)

/-- Modelled from the spec: the dot product of the external `diffvec`
crate. -/
def Vector3F.dot (a b : Vector3F) : F :=
  ((a.x.mul b.x).add (a.y.mul b.y)).add (a.z.mul b.z)

/-- Modelled from the spec: the cross product of the external `diffvec`
crate. -/
def Vector3F.cross (a b : Vector3F) : Vector3F :=
  vec3F ((a.y.mul b.z).sub (a.z.mul b.y))
        ((a.z.mul b.x).sub (a.x.mul b.z))
        ((a.x.mul b.y).sub (a.y.mul b.x))

/-- Modelled from the spec: `Vector3::norm_squared` of the external
`diffvec` crate. -/
def Vector3F.norm_squared (v : Vector3F) : F := v.dot v

/-- Modelled from the spec: `Vector3::norm` of the external `diffvec` crate,
the square root of `norm_squared`; `f32::sqrt` is not part of this
repository, so the embedding is parametrized by `sqrtF`. -/
def Vector3F.norm (sqrtF : F → F) (v : Vector3F) : F := sqrtF v.norm_squared

/-- Embedding of `Rotation3` (`src/rot3.rs`): the vector part `x_y_z` and
scalar part `w` of a quaternion. -/
structure Rotation3 where
  x_y_z : Vector3F
  w : F
deriving DecidableEq

/-- Embedding of `Rotation3::new_unchecked` (`src/rot3.rs` lines 20-25). -/
def Rotation3.new_unchecked (w x y z : F) : Rotation3 := ⟨vec3F x y z, w⟩

/-- Embedding of `Rotation3::IDENTITY` (`src/rot3.rs` line 28). -/
def Rotation3.IDENTITY : Rotation3 := Rotation3.new_unchecked (F.num 1) (F.num 0) (F.num 0) (F.num 0)

/-- Embedding of `Rotation3::about` (`src/rot3.rs` lines 34-49), parametrized
by the square-root function `sqrtF` (`f32::sqrt` is not part of this
repository). -/
def Rotation3.about (sqrtF : F → F) (axis : Vector3F) (amount : Rotation2) : Rotation3 :=
  let sc := amount.angle_sin_cos
  let hsc :=
    if (F.num 0).lt sc.2 then
      let h_cos := sqrtF (((F.num 1).add sc.2).div (F.num 2))
      let h_sin := (sc.1.mul h_cos).div ((F.num 1).add sc.2)
      (h_sin, h_cos)
    else
      let h_sin := sqrtF (((F.num 1).sub sc.2).div (F.num 2))
      let h_cos := (sc.1.mul h_sin).div ((F.num 1).sub sc.2)
      (h_sin, h_cos)
  ⟨Vector3F.muls axis hsc.1, hsc.2⟩

/-- Embedding of `Rotation3::from_euler` (`src/rot3.rs` lines 54-57):
`about(vec / vec.norm(), Rotation2::from_angle(vec.norm()))`, parametrized by
the square-root and tangent functions. -/
def Rotation3.from_euler (sqrtF tanF : F → F) (vec : Vector3F) : Rotation3 :=
  let len := vec.norm sqrtF
  Rotation3.about sqrtF (vec.divs len) (Rotation2.from_angle tanF len)

/-- Embedding of `Mul<Rotation3> for Rotation3` (`src/rot3.rs` lines
120-135): quaternion multiplication followed by the approximate
renormalization by `2 / (1 + norm_sqr)`. -/
def Rotation3.mul (a b : Rotation3) : Rotation3 :=
  let w := (a.w.mul b.w).sub (a.x_y_z.dot b.x_y_z)
  let x_y_z := ((Vector3F.smul a.w b.x_y_z).add (Vector3F.smul b.w a.x_y_z)).add
    (a.x_y_z.cross b.x_y_z)
  let norm_sqr := (w.mul w).add x_y_z.norm_squared
  let i_norm := (F.num 2).div ((F.num 1).add norm_sqr)
  ⟨Vector3F.muls x_y_z i_norm, w.mul i_norm⟩

/-- Embedding of the target of `From<Rotation3> for Matrix3` (the `Matrix3`
type of `diffvec`): three column vectors. -/
structure Matrix3F where
  x : Vector3F
  y : Vector3F
  z : Vector3F
deriving DecidableEq

/-- Embedding of `From<Rotation3> for Matrix3` (`src/rot3.rs` lines 145-162):
the standard quaternion-to-matrix formula. -/
def Rotation3.to_matrix (rot : Rotation3) : Matrix3F :=
  let wx2 := ((F.num 2).mul rot.w).mul rot.x_y_z.x
  let wy2 := ((F.num 2).mul rot.w).mul rot.x_y_z.y
  let wz2 := ((F.num 2).mul rot.w).mul rot.x_y_z.z
  let xx2 := ((F.num 2).mul rot.x_y_z.x).mul rot.x_y_z.x
  let xy2 := ((F.num 2).mul rot.x_y_z.x).mul rot.x_y_z.y
  let xz2 := ((F.num 2).mul rot.x_y_z.x).mul rot.x_y_z.z
  let yy2 := ((F.num 2).mul rot.x_y_z.y).mul rot.x_y_z.y
  let yz2 := ((F.num 2).mul rot.x_y_z.y).mul rot.x_y_z.z
  let zz2 := ((F.num 2).mul rot.x_y_z.z).mul rot.x_y_z.z
  ⟨vec3F (((F.num 1).sub yy2).sub zz2) (xy2.add wz2) (xz2.sub wy2),
   vec3F (xy2.sub wz2) (((F.num 1).sub xx2).sub zz2) (yz2.add wx2),
   vec3F (xz2.add wy2) (yz2.sub wx2) (((F.num 1).sub xx2).sub yy2)⟩

/-- Modelled from the spec: the `Matrix3 * Vector3` product of the external
`diffvec` crate; `x`, `y`, `z` are the matrix columns (as in `From<Rotation2>
for Matrix2` in `src/rot2.rs`), so the product is
`v.x·m.x + v.y·m.y + v.z·m.z`. -/
def Matrix3F.mul_vec (m : Matrix3F) (v : Vector3F) : Vector3F :=
  ((Vector3F.smul v.x m.x).add (Vector3F.smul v.y m.y)).add (Vector3F.smul v.z m.z)

/-- Embedding of `Mul<Vector3> for Rotation3` (`src/rot3.rs` lines 137-142):
convert to a `Matrix3` and multiply. -/
def Rotation3.apply_vec3 (r : Rotation3) (v : Vector3F) : Vector3F :=
  r.to_matrix.mul_vec v

/-- The exact value of the `f32` constant `std::f32::consts::SQRT_2 / 2.0`
(`SQ` in `src/rot3i.rs` line 125): `11863283 / 2²⁴`. -/
def SQ : ℚ := 11863283 / 16777216

/-- Embedding of `Rotation3i::to_rot3` (`src/rot3i.rs` lines 124-153): the
24-entry lookup table of exact quaternions, in discriminant order. -/
def Rotation3i.to_rot3 : Rotation3i → Rotation3
  | .XpYpZp => Rotation3.new_unchecked (F.num 1) (F.num 0) (F.num 0) (F.num 0)
  | .YpXpZn => Rotation3.new_unchecked (F.num 0) (F.num SQ) (F.num SQ) (F.num 0)
  | .YnXpZp => Rotation3.new_unchecked (F.num SQ) (F.num 0) (F.num 0) (F.num SQ)
  | .XnYpZn => Rotation3.new_unchecked (F.num 0) (F.num 0) (F.num 1) (F.num 0)
  | .XnYnZp => Rotation3.new_unchecked (F.num 0) (F.num 0) (F.num 0) (F.num 1)
  | .YnXnZn => Rotation3.new_unchecked (F.num 0) (F.num SQ) (F.num (-SQ)) (F.num 0)
  | .YpXnZp => Rotation3.new_unchecked (F.num SQ) (F.num 0) (F.num 0) (F.num (-SQ))
  | .XpYnZn => Rotation3.new_unchecked (F.num 0) (F.num 1) (F.num 0) (F.num 0)
  | .ZpXpYp => Rotation3.new_unchecked (F.num (1/2)) (F.num (1/2)) (F.num (1/2)) (F.num (1/2))
  | .XpZnYp => Rotation3.new_unchecked (F.num SQ) (F.num SQ) (F.num 0) (F.num 0)
  | .XnZpYp => Rotation3.new_unchecked (F.num 0) (F.num 0) (F.num SQ) (F.num SQ)
  | .ZnXpYn => Rotation3.new_unchecked (F.num (1/2)) (F.num (-1/2)) (F.num (-1/2)) (F.num (1/2))
  | .ZnXnYp => Rotation3.new_unchecked (F.num (1/2)) (F.num (1/2)) (F.num (-1/2)) (F.num (-1/2))
  | .XnZnYn => Rotation3.new_unchecked (F.num 0) (F.num 0) (F.num (-SQ)) (F.num SQ)
  | .XpZpYn => Rotation3.new_unchecked (F.num SQ) (F.num (-SQ)) (F.num 0) (F.num 0)
  | .ZpXnYn => Rotation3.new_unchecked (F.num (1/2)) (F.num (-1/2)) (F.num (1/2)) (F.num (-1/2))
  | .YpZpXp => Rotation3.new_unchecked (F.num (1/2)) (F.num (-1/2)) (F.num (-1/2)) (F.num (-1/2))
  | .ZpYpXn => Rotation3.new_unchecked (F.num SQ) (F.num 0) (F.num SQ) (F.num 0)
  | .ZnYpXp => Rotation3.new_unchecked (F.num SQ) (F.num 0) (F.num (-SQ)) (F.num 0)
  | .YnZpXn => Rotation3.new_unchecked (F.num (1/2)) (F.num (-1/2)) (F.num (1/2)) (F.num (1/2))
  | .YnZnXp => Rotation3.new_unchecked (F.num (1/2)) (F.num (1/2)) (F.num (-1/2)) (F.num (1/2))
  | .ZnYnXn => Rotation3.new_unchecked (F.num 0) (F.num SQ) (F.num 0) (F.num (-SQ))
  | .ZpYnXp => Rotation3.new_unchecked (F.num 0) (F.num SQ) (F.num 0) (F.num SQ)
  | .YpZnXn => Rotation3.new_unchecked (F.num (1/2)) (F.num (1/2)) (F.num (1/2)) (F.num (-1/2))

/-- Embedding of `Rotation3i::apply_vec3` (`src/rot3i.rs` lines 186-213):
the same signed permutation as `apply_vec3i`, on continuous vectors. -/
def Rotation3i.apply_vec3 (r : Rotation3i) (source : Vector3F) : Vector3F :=
  match r with
  | .XpYpZp => source
  | .YpXpZn => vec3F source.y source.x source.z.neg
  | .YnXpZp => vec3F source.y.neg source.x source.z
  | .XnYpZn => vec3F source.x.neg source.y source.z.neg
  | .XnYnZp => vec3F source.x.neg source.y.neg source.z
  | .YnXnZn => vec3F source.y.neg source.x.neg source.z.neg
  | .YpXnZp => vec3F source.y source.x.neg source.z
  | .XpYnZn => vec3F source.x source.y.neg source.z.neg
  | .ZpXpYp => vec3F source.z source.x source.y
  | .XpZnYp => vec3F source.x source.z.neg source.y
  | .XnZpYp => vec3F source.x.neg source.z source.y
  | .ZnXpYn => vec3F source.z.neg source.x source.y.neg
  | .ZnXnYp => vec3F source.z.neg source.x.neg source.y
  | .XnZnYn => vec3F source.x.neg source.z.neg source.y.neg
  | .XpZpYn => vec3F source.x source.z source.y.neg
  | .ZpXnYn => vec3F source.z source.x.neg source.y.neg
  | .YpZpXp => vec3F source.y source.z source.x
  | .ZpYpXn => vec3F source.z source.y source.x.neg
  | .ZnYpXp => vec3F source.z.neg source.y source.x
  | .YnZpXn => vec3F source.y.neg source.z source.x.neg
  | .YnZnXp => vec3F source.y.neg source.z.neg source.x
  | .ZnYnXn => vec3F source.z.neg source.y.neg source.x.neg
  | .ZpYnXp => vec3F source.z source.y.neg source.x
  | .YpZnXn => vec3F source.y source.z.neg source.x.neg

/-- The exact value of the `f32` literal `1.0e-6` (the `max_relative`
tolerance of the discrete/continuous agreement property): `8796093 / 2⁴³`. -/
def relTol : F := .num (8796093 / 8796093022208)

/-- Model of `approx::relative_eq!` with a given `max_relative` tolerance:
`|a - b| ≤ tol · max(|a|, |b|)`. -/
def F.relEq (tol a b : F) : Bool :=
  (a.sub b).abs.le (tol.mul (if a.abs.le b.abs then b.abs else a.abs))

/-- Componentwise `relative_eq` on vectors, as `approx` derives it. -/
def Vector3F.relEq (tol : F) (a b : Vector3F) : Bool :=
  F.relEq tol a.x b.x && F.relEq tol a.y b.y && F.relEq tol a.z b.z

/-- The test vector `vec3(1.0, 2.0, 3.0)` of the discrete/continuous
agreement property (`test_to_rot3` in `src/rot3i.rs`). -/
def testVec3 : Vector3F := vec3F (F.num 1) (F.num 2) (F.num 3)

/-- The `f32` value of the literal `0.2` (exactly `13421773 / 2²⁶`), the
second component of the test vector of `test_consts` in `src/rot2.rs`. -/
def c02 : ℚ := 13421773 / 67108864
/-- C1: the derived `Rotation3i` tables satisfy their defining probe
equations: for all `a`, `b`, the composition table entry applied to the probe
`(1,2,3)` equals `a` applied to (`b` applied to the probe), and the inverse
table entry applied to (`a` applied to the probe) recovers the probe. -/
theorem rot3i_tables_satisfy_probe_equations :
    (∀ a b : Rotation3i,
      (Rotation3i.compose a b).apply_vec3i probeVec
        = a.apply_vec3i (b.apply_vec3i probeVec)) ∧
    (∀ a : Rotation3i,
      a.inverse.apply_vec3i (a.apply_vec3i probeVec) = probeVec) := by
  decide

/-- C2: invertibility of both discrete rotation groups: every `Rotation3i`
and every `Rotation2i` composed with its inverse, in either order, gives the
identity. -/
theorem rot_discrete_inverse_laws :
    (∀ a : Rotation3i,
      Rotation3i.compose a.inverse a = Rotation3i.IDENTITY ∧
      Rotation3i.compose a a.inverse = Rotation3i.IDENTITY) ∧
    (∀ a : Rotation2i,
      Rotation2i.mul a.inverse a = Rotation2i.IDENTITY ∧
      Rotation2i.mul a a.inverse = Rotation2i.IDENTITY) := by
  decide

set_option exponentiation.threshold 600 in
theorem Rotation3i.compose_eq_composeTbl :
    ∀ a b : Rotation3i, Rotation3i.compose a b = composeTbl a b := by
  decide

theorem tblIdx_lt (i j : Nat) : tblIdx i j < 24 :=
  Nat.mod_lt _ (by norm_num)

theorem Rotation3i.toIdx_lt : ∀ a : Rotation3i, a.toIdx < 24 := by
  intro a
  cases a <;> decide

theorem Rotation3i.toIdx_ofIdx : ∀ m : Nat, m < 24 → (Rotation3i.ofIdx m).toIdx = m := by
  intro m hm
  interval_cases m <;> rfl

set_option maxHeartbeats 4000000 in
set_option exponentiation.threshold 600 in
theorem tblIdx_assoc_check :
    ((List.range 24).all fun i =>
      (List.range 24).all fun j =>
        (List.range 24).all fun k =>
          decide (tblIdx (tblIdx i j) k = tblIdx i (tblIdx j k))) = true := by
  decide

theorem tblIdx_assoc :
    ∀ i j k : Nat, i < 24 → j < 24 → k < 24 →
      tblIdx (tblIdx i j) k = tblIdx i (tblIdx j k) := by
  intro i j k hi hj hk
  have h := tblIdx_assoc_check
  rw [List.all_eq_true] at h
  have hi2 := h i (List.mem_range.mpr hi)
  rw [List.all_eq_true] at hi2
  have hj2 := hi2 j (List.mem_range.mpr hj)
  rw [List.all_eq_true] at hj2
  exact of_decide_eq_true (hj2 k (List.mem_range.mpr hk))

theorem composeTbl_assoc :
    ∀ a b c : Rotation3i,
      composeTbl (composeTbl a b) c = composeTbl a (composeTbl b c) := by
  intro a b c
  unfold composeTbl
  rw [Rotation3i.toIdx_ofIdx _ (tblIdx_lt _ _), Rotation3i.toIdx_ofIdx _ (tblIdx_lt _ _),
    tblIdx_assoc _ _ _ (Rotation3i.toIdx_lt a) (Rotation3i.toIdx_lt b) (Rotation3i.toIdx_lt c)]

/-- C3: associativity of both discrete rotation groups, over all `24³`
triples of `Rotation3i` values and all `4³` triples of `Rotation2i` values. -/
theorem rot_discrete_assoc :
    (∀ a b c : Rotation3i,
      Rotation3i.compose (Rotation3i.compose a b) c
        = Rotation3i.compose a (Rotation3i.compose b c)) ∧
    (∀ a b c : Rotation2i,
      Rotation2i.mul (Rotation2i.mul a b) c
        = Rotation2i.mul a (Rotation2i.mul b c)) := by
  constructor
  · intro a b c
    rw [Rotation3i.compose_eq_composeTbl, Rotation3i.compose_eq_composeTbl,
      Rotation3i.compose_eq_composeTbl, Rotation3i.compose_eq_composeTbl]
    exact composeTbl_assoc a b c
  · decide
/-- C4: `Rotation2` composition is computed by a four-way branch on whether
the magnitude of each operand is within `NORMAL_THRESHOLD`: the tangent
half-angle addition law `(x+y)/(1-x·y)` when both are, the reciprocal form
`1/(1/y - x)` (or the symmetric `1/(1/x - y)`) when exactly one exceeds the
threshold, and `(-1/x) + (-1/y)` when both do. -/
theorem rot2_compose_four_way_branch :
    ∀ a b : Rotation2,
      Rotation2.mul a b =
        ⟨if a.tan_half_angle.abs.le Rotation2.NORMAL_THRESHOLD then
            if b.tan_half_angle.abs.le Rotation2.NORMAL_THRESHOLD then
              (a.tan_half_angle.add b.tan_half_angle).div
                ((F.num 1).sub (a.tan_half_angle.mul b.tan_half_angle))
            else
              (F.num 1).div (((F.num 1).div b.tan_half_angle).sub a.tan_half_angle)
          else if b.tan_half_angle.abs.le Rotation2.NORMAL_THRESHOLD then
            (F.num 1).div (((F.num 1).div a.tan_half_angle).sub b.tan_half_angle)
          else
            ((F.num (-1)).div a.tan_half_angle).add ((F.num (-1)).div b.tan_half_angle)⟩ := by
  intro a b
  simp only [Rotation2.mul]
  split_ifs <;> rfl

/-- C5: `Rotation3` composition is the standard quaternion product — scalar
part `w = a.w·b.w − a.vec·b.vec`, vector part
`a.w·b.vec + b.w·a.vec + a.vec × b.vec` — with both parts then scaled by the
approximate renormalization factor `2/(1 + norm_sqr)`, where
`norm_sqr = w² + |vec|²`. -/
theorem rot3_compose_quaternion_renorm :
    ∀ a b : Rotation3,
      Rotation3.mul a b =
        ⟨Vector3F.muls
            (((Vector3F.smul a.w b.x_y_z).add (Vector3F.smul b.w a.x_y_z)).add
              (a.x_y_z.cross b.x_y_z))
            ((F.num 2).div ((F.num 1).add
              ((((a.w.mul b.w).sub (a.x_y_z.dot b.x_y_z)).mul
                  ((a.w.mul b.w).sub (a.x_y_z.dot b.x_y_z))).add
                (((Vector3F.smul a.w b.x_y_z).add (Vector3F.smul b.w a.x_y_z)).add
                  (a.x_y_z.cross b.x_y_z)).norm_squared))),
          ((a.w.mul b.w).sub (a.x_y_z.dot b.x_y_z)).mul
            ((F.num 2).div ((F.num 1).add
              ((((a.w.mul b.w).sub (a.x_y_z.dot b.x_y_z)).mul
                  ((a.w.mul b.w).sub (a.x_y_z.dot b.x_y_z))).add
                (((Vector3F.smul a.w b.x_y_z).add (Vector3F.smul b.w a.x_y_z)).add
                  (a.x_y_z.cross b.x_y_z)).norm_squared)))⟩ :=
  fun _ _ => rfl

set_option maxHeartbeats 4000000 in
/-- C6: for every one of the 24 discrete spatial rotations, applying it
directly to `(1.0, 2.0, 3.0)` by its signed-permutation branch agrees within
relative tolerance `1e-6` with converting it to its exact quaternion via
`to_rot3` and applying that quaternion to the same vector. -/
theorem rot3i_agrees_with_to_rot3 :
    ∀ a : Rotation3i,
      Vector3F.relEq relTol (a.apply_vec3 testVec3)
        (a.to_rot3.apply_vec3 testVec3) = true := by
  intro a
  cases a <;>
    norm_num [Rotation3i.apply_vec3, Rotation3i.to_rot3, Rotation3.apply_vec3,
      Rotation3.to_matrix, Matrix3F.mul_vec, Rotation3.new_unchecked,
      Vector3F.smul, Vector3F.add, vec3F, testVec3, Vector3F.relEq, F.relEq,
      F.sub, F.add, F.neg, F.mul, F.abs, F.le, SQ, relTol,
      Bool.and_eq_true, decide_eq_true_eq]

/-- C7 (refuted at two variants): the serialized tag of each discrete
rotation variant is its variant name in lowercase for every `Rotation2i`
variant and for 22 of the 24 `Rotation3i` variants, but `XpZpYn` carries the
tag `"xpznyn"` (not `"xpzpyn"`) and `YnZpXn` carries the tag `"ynzpzn"` (not
`"ynzpxn"` — a string that names the `z` axis twice and cannot describe axis
images at all). -/
theorem rot3i_serde_tag_mismatch :
    Rotation3i.serdeTag .XpZpYn = "xpznyn" ∧
    Rotation3i.lowerName .XpZpYn = "xpzpyn" ∧
    Rotation3i.serdeTag .YnZpXn = "ynzpzn" ∧
    Rotation3i.lowerName .YnZpXn = "ynzpxn" ∧
    Rotation3i.serdeTag .XpZpYn ≠ Rotation3i.lowerName .XpZpYn ∧
    Rotation3i.serdeTag .YnZpXn ≠ Rotation3i.lowerName .YnZpXn ∧
    (∀ r : Rotation3i,
      r = .XpZpYn ∨ r = .YnZpXn ∨ r.serdeTag = r.lowerName) ∧
    (∀ r : Rotation2i, r.serdeTag = r.lowerName) := by
  refine ⟨rfl, rfl, rfl, rfl, by decide, by decide, by decide, by decide⟩

/-- C8: the named `Rotation2` constants applied to `(1.0, 0.2)`: `CCW_90`
gives `(-0.2, 1.0)`, `CW_90` gives `(0.2, -1.0)`, and the 180° `FLIP`
constant (infinite tangent half-angle, handled by the above-threshold branch
of `angle_sin_cos`) gives `(-1.0, -0.2)`. -/
theorem rot2_named_constants_apply :
    Rotation2.apply_vec2 Rotation2.CCW_90 (vec2F (F.num 1) (F.num c02))
        = vec2F (F.num (-c02)) (F.num 1) ∧
    Rotation2.apply_vec2 Rotation2.CW_90 (vec2F (F.num 1) (F.num c02))
        = vec2F (F.num c02) (F.num (-1)) ∧
    Rotation2.apply_vec2 Rotation2.FLIP (vec2F (F.num 1) (F.num c02))
        = vec2F (F.num (-1)) (F.num (-c02)) := by
  refine ⟨?_, ?_, ?_⟩ <;>
    norm_num [Rotation2.apply_vec2, Rotation2.angle_sin_cos, Rotation2.CCW_90,
      Rotation2.CW_90, Rotation2.FLIP, Rotation2.NORMAL_THRESHOLD, vec2F, c02,
      F.abs, F.lt, F.mul, F.add, F.sub, F.neg, F.div, decide_eq_true_eq]

/-- C9: `Rotation3::from_euler` on the zero vector returns a rotation whose
scalar part is exactly `1.0` and whose vector part is all-NaN (the axis is
`0/0 = NaN` per component, the angle is `0`, and the `cos > 0` branch of
`about` multiplies the NaN axis by a half-sine of `0.0`, which is NaN); this
holds for any model of `f32::sqrt` and `f32::tan` that is exact at the fixed
points `sqrt 0 = 0`, `sqrt 1 = 1` and `tan 0 = 0`. -/
theorem from_euler_zero_vector_nan :
    ∀ sqrtF tanF : F → F,
      sqrtF (F.num 0) = F.num 0 →
      sqrtF (F.num 1) = F.num 1 →
      tanF (F.num 0) = F.num 0 →
      Rotation3.from_euler sqrtF tanF (vec3F (F.num 0) (F.num 0) (F.num 0))
        = ⟨vec3F F.nan F.nan F.nan, F.num 1⟩ := by
  intro sqrtF tanF hs0 hs1 ht0
  have e0 : (vec3F (F.num 0) (F.num 0) (F.num 0)).norm_squared = F.num 0 := by
    norm_num [Vector3F.norm_squared, Vector3F.dot, vec3F, F.mul, F.add]
  have e1 : (vec3F (F.num 0) (F.num 0) (F.num 0)).divs (F.num 0)
      = vec3F F.nan F.nan F.nan := by
    norm_num [Vector3F.divs, vec3F, F.div]
  have e2 : (F.num 0).div (F.num 2) = F.num 0 := by
    norm_num [F.div]
  have e3 : Rotation2.angle_sin_cos ⟨F.num 0⟩ = (F.num 0, F.num 1) := by
    norm_num [Rotation2.angle_sin_cos, Rotation2.NORMAL_THRESHOLD, F.abs, F.lt,
      F.mul, F.add, F.sub, F.neg, F.div, decide_eq_true_eq]
  show Rotation3.about sqrtF
      ((vec3F (F.num 0) (F.num 0) (F.num 0)).divs
        (sqrtF ((vec3F (F.num 0) (F.num 0) (F.num 0)).norm_squared)))
      (Rotation2.from_angle tanF
        (sqrtF ((vec3F (F.num 0) (F.num 0) (F.num 0)).norm_squared)))
    = ⟨vec3F F.nan F.nan F.nan, F.num 1⟩
  rw [e0, hs0, e1]
  show Rotation3.about sqrtF (vec3F F.nan F.nan F.nan)
      ⟨tanF ((F.num 0).div (F.num 2))⟩ = ⟨vec3F F.nan F.nan F.nan, F.num 1⟩
  rw [e2, ht0]
  simp only [Rotation3.about, e3]
  norm_num [F.lt, F.mul, F.add, F.sub, F.neg, F.div, decide_eq_true_eq]
  rw [hs1]
  norm_num [Vector3F.muls, vec3F, F.mul]

/-- Witness for C9: instantiating the square-root and tangent models with the
identity function (which satisfies all three fixed-point hypotheses). -/
theorem from_euler_zero_vector_nan_witness :
    Rotation3.from_euler (fun s => s) (fun s => s)
        (vec3F (F.num 0) (F.num 0) (F.num 0))
      = ⟨vec3F F.nan F.nan F.nan, F.num 1⟩ :=
  from_euler_zero_vector_nan (fun s => s) (fun s => s) rfl rfl rfl

/-- Negating a finite scalar does not change its absolute value. -/
theorem F.abs_neg_num (p : ℚ) : (F.num (-p)).abs = (F.num p).abs := by
  simp only [F.abs]
  rcases lt_trichotomy p 0 with h | h | h
  · rw [if_neg (by linarith), if_pos h]
  · subst h
    norm_num
  · rw [if_pos (by linarith), if_neg (by linarith), neg_neg]

/-- C10: for every `Rotation2` whose tangent half-angle is not NaN (including
`FLIP`, with an infinite tangent), composing it with its inverse in either
order gives exactly `Rotation2::IDENTITY` (tangent half-angle exactly `0.0`):
both operands always select the same branch of the composition, and the
numerator `x + (-x)` (respectively `(-1/x) + (-1/(-x))`) is exactly zero. -/
theorem rot2_mul_inverse_exact_identity :
    ∀ r : Rotation2, r.tan_half_angle ≠ F.nan →
      Rotation2.mul r r.inverse = Rotation2.IDENTITY ∧
      Rotation2.mul r.inverse r = Rotation2.IDENTITY := by
  intro r h
  obtain ⟨x⟩ := r
  cases x with
  | nan => exact absurd rfl h
  | inf b =>
    constructor
    · show Rotation2.mul ⟨F.inf b⟩ ⟨F.inf !b⟩ = Rotation2.IDENTITY
      norm_num [Rotation2.mul, Rotation2.IDENTITY, Rotation2.NORMAL_THRESHOLD,
        F.abs, F.le, F.add, F.sub, F.neg, F.mul, F.div]
    · show Rotation2.mul ⟨F.inf !b⟩ ⟨F.inf b⟩ = Rotation2.IDENTITY
      norm_num [Rotation2.mul, Rotation2.IDENTITY, Rotation2.NORMAL_THRESHOLD,
        F.abs, F.le, F.add, F.sub, F.neg, F.mul, F.div]
  | num q =>
    by_cases hq : F.le (F.num q).abs Rotation2.NORMAL_THRESHOLD = true
    · have hq2 : F.le (F.num (-q)).abs Rotation2.NORMAL_THRESHOLD = true := by
        rw [F.abs_neg_num]
        exact hq
      have hden : (1 + q * q : ℚ) ≠ 0 := by
        have h0 : (0 : ℚ) < 1 + q * q := by nlinarith [sq_nonneg q]
        exact h0.ne'
      constructor
      · show Rotation2.mul ⟨F.num q⟩ ⟨F.num (-q)⟩ = Rotation2.IDENTITY
        simp [Rotation2.mul, hq, hq2, F.add, F.mul, F.sub, F.neg, F.div,
          Rotation2.IDENTITY, hden]
      · show Rotation2.mul ⟨F.num (-q)⟩ ⟨F.num q⟩ = Rotation2.IDENTITY
        simp [Rotation2.mul, hq, hq2, F.add, F.mul, F.sub, F.neg, F.div,
          Rotation2.IDENTITY, hden]
    · have hq2 : ¬ F.le (F.num (-q)).abs Rotation2.NORMAL_THRESHOLD = true := by
        rw [F.abs_neg_num]
        exact hq
      have hq0 : q ≠ 0 := by
        intro h0
        apply hq
        subst h0
        norm_num [F.abs, F.le, Rotation2.NORMAL_THRESHOLD, decide_eq_true_eq]
      constructor
      · show Rotation2.mul ⟨F.num q⟩ ⟨F.num (-q)⟩ = Rotation2.IDENTITY
        simp [Rotation2.mul, hq, hq2, F.add, F.div, F.neg, hq0, neg_ne_zero,
          Rotation2.IDENTITY, neg_div, div_neg, neg_neg]
      · show Rotation2.mul ⟨F.num (-q)⟩ ⟨F.num q⟩ = Rotation2.IDENTITY
        simp [Rotation2.mul, hq, hq2, F.add, F.div, F.neg, hq0, neg_ne_zero,
          Rotation2.IDENTITY, neg_div, div_neg, neg_neg]

/-- Witness for C10: the 180° `FLIP` constant (infinite tangent half-angle)
composed with its inverse, in both orders, is exactly the identity. -/
theorem rot2_mul_inverse_exact_identity_witness :
    Rotation2.mul Rotation2.FLIP Rotation2.FLIP.inverse = Rotation2.IDENTITY ∧
    Rotation2.mul Rotation2.FLIP.inverse Rotation2.FLIP = Rotation2.IDENTITY :=
  rot2_mul_inverse_exact_identity Rotation2.FLIP (by simp [Rotation2.FLIP])
